import Mathlib

/-!
Verification of the RDW vehicle-data portal core (`rdw_client.py`, `main.py`,
`web_app.py`): the record translator, the filter builder, the paginated
fetcher and the export sinks, shallowly embedded in Lean.

Python dictionaries are embedded as association lists with the usual
insert-or-overwrite semantics (assignment to an existing key overwrites in
place, a new key is appended; lookup returns the stored value).
-/

namespace RDW

/-- A JSON-ish value as delivered by the remote API: string, number or null. -/
inductive Value where
  | str : String → Value
  | num : Int → Value
  | null : Value
deriving DecidableEq, Repr

/-- Lookup in a Python-dict-like association list (`d.get(k)` / `d[k]`). -/
def dictGet {V : Type} : List (String × V) → String → Option V
  | [], _ => none
  | (k', v) :: d, k => if k' = k then some v else dictGet d k

/-- Python dict assignment `d[k] = v`: overwrite in place if the key exists,
append otherwise. -/
def dictInsert {V : Type} : List (String × V) → String → V → List (String × V)
  | [], k, v => [(k, v)]
  | (k', v') :: d, k, v =>
      if k' = k then (k', v) :: d else (k', v') :: dictInsert d k v

/-- A record as a Python dict: association list from field name to value. -/
abbrev Record := List (String × Value)

/-- Python `str.strip()`: remove leading and trailing whitespace. -/
def pyStrip (s : String) : String :=
  String.mk (((s.data.dropWhile Char.isWhitespace).reverse.dropWhile Char.isWhitespace).reverse)

/-- Python `str.isdigit()`: nonempty and every character a digit. -/
def pyIsDigit (s : String) : Bool :=
  !s.data.isEmpty && s.data.all Char.isDigit

/-- Python slicing `s[a:b]` on a string. -/
def pySlice (s : String) (a b : Nat) : String :=
  String.mk ((s.data.take b).drop a)

/-- Python `s.replace(c, "")` for a one-character pattern: remove every
occurrence of the character. -/
def pyRemoveChar (c : Char) (s : String) : String :=
  String.mk (s.data.filter (fun x => x ≠ c))

/-- `COLUMN_TRANSLATIONS` from `rdw_client.py`: Dutch source field name to
canonical English field name. -/
def COLUMN_TRANSLATIONS : List (String × String) := [
  ("kenteken", "license_plate"),
  ("voertuigsoort", "vehicle_type"),
  ("merk", "make"),
  ("handelsbenaming", "commercial_name"),
  ("vervaldatum_apk", "inspection_expiry_date"),
  ("datum_tenaamstelling", "registration_date"),
  ("bruto_bpm", "gross_bpm"),
  ("inrichting", "body_style"),
  ("aantal_zitplaatsen", "seat_count"),
  ("eerste_kleur", "primary_color"),
  ("tweede_kleur", "secondary_color"),
  ("aantal_cilinders", "cylinder_count"),
  ("cilinderinhoud", "engine_displacement_cc"),
  ("massa_ledig_voertuig", "curb_weight_kg"),
  ("toegestane_maximum_massa_voertuig", "max_authorized_mass_kg"),
  ("massa_rijklaar", "ready_to_drive_mass_kg"),
  ("maximum_massa_trekken_ongeremd", "max_unbraked_tow_mass_kg"),
  ("maximum_trekken_massa_geremd", "max_braked_tow_mass_kg"),
  ("datum_eerste_toelating", "first_admission_date"),
  ("datum_eerste_tenaamstelling_in_nederland", "first_registration_nl_date"),
  ("wacht_op_keuren", "awaiting_inspection"),
  ("catalogusprijs", "list_price_eur"),
  ("wam_verzekerd", "liability_insured"),
  ("maximale_constructiesnelheid", "design_speed_kmh"),
  ("laadvermogen", "payload_kg"),
  ("oplegger_geremd", "semi_trailer_braked_mass_kg"),
  ("aanhangwagen_autonoom_geremd", "autonomous_trailer_braked_mass_kg"),
  ("aanhangwagen_middenas_geremd", "central_axle_trailer_braked_mass_kg"),
  ("aantal_staanplaatsen", "standing_places"),
  ("aantal_deuren", "door_count"),
  ("aantal_wielen", "wheel_count"),
  ("afstand_hart_koppeling_tot_achterzijde_voertuig", "distance_coupling_to_rear_mm"),
  ("afstand_voorzijde_voertuig_tot_hart_koppeling", "distance_front_to_coupling_mm"),
  ("afwijkende_maximum_snelheid", "alternate_max_speed_kmh"),
  ("lengte", "length_cm"),
  ("breedte", "width_cm"),
  ("europese_voertuigcategorie", "eu_vehicle_category"),
  ("europese_voertuigcategorie_toevoeging", "eu_vehicle_category_addition"),
  ("europese_uitvoeringcategorie_toevoeging", "eu_variant_category_addition"),
  ("plaats_chassisnummer", "vin_location"),
  ("technische_max_massa_voertuig", "technical_max_mass_kg"),
  ("type", "type_code"),
  ("type_gasinstallatie", "gas_installation_type"),
  ("typegoedkeuringsnummer", "type_approval_number"),
  ("variant", "variant"),
  ("uitvoering", "trim"),
  ("volgnummer_wijziging_eu_typegoedkeuring", "eu_type_approval_revision"),
  ("vermogen_massarijklaar", "power_mass_ratio_kw_per_kg"),
  ("wielbasis", "wheelbase_cm"),
  ("export_indicator", "export_indicator"),
  ("openstaande_terugroepactie_indicator", "open_recall_indicator"),
  ("vervaldatum_tachograaf", "tachograph_expiry_date"),
  ("taxi_indicator", "taxi_indicator"),
  ("maximum_massa_samenstelling", "max_combination_mass_kg"),
  ("aantal_rolstoelplaatsen", "wheelchair_places"),
  ("maximum_ondersteunende_snelheid", "max_assisted_speed_kmh"),
  ("jaar_laatste_registratie_tellerstand", "last_odometer_year"),
  ("tellerstandoordeel", "odometer_judgement"),
  ("code_toelichting_tellerstandoordeel", "odometer_judgement_code"),
  ("tenaamstellen_mogelijk", "registration_allowed"),
  ("vervaldatum_apk_dt", "inspection_expiry_datetime"),
  ("datum_tenaamstelling_dt", "registration_datetime"),
  ("datum_eerste_toelating_dt", "first_admission_datetime"),
  ("datum_eerste_tenaamstelling_in_nederland_dt", "first_registration_nl_datetime"),
  ("vervaldatum_tachograaf_dt", "tachograph_expiry_datetime"),
  ("maximum_last_onder_de_vooras_sen_tezamen_koppeling", "max_front_axle_load_with_coupling_kg"),
  ("type_remsysteem_voertuig_code", "brake_system_code"),
  ("rupsonderstelconfiguratiecode", "tracked_chassis_configuration_code"),
  ("wielbasis_voertuig_minimum", "wheelbase_min_cm"),
  ("wielbasis_voertuig_maximum", "wheelbase_max_cm"),
  ("lengte_voertuig_minimum", "length_min_cm"),
  ("lengte_voertuig_maximum", "length_max_cm"),
  ("breedte_voertuig_minimum", "width_min_cm"),
  ("breedte_voertuig_maximum", "width_max_cm"),
  ("hoogte_voertuig", "height_cm"),
  ("hoogte_voertuig_minimum", "height_min_cm"),
  ("hoogte_voertuig_maximum", "height_max_cm"),
  ("massa_bedrijfsklaar_minimaal", "operational_mass_min_kg"),
  ("massa_bedrijfsklaar_maximaal", "operational_mass_max_kg"),
  ("technisch_toelaatbaar_massa_koppelpunt", "tech_permissible_coupling_mass_kg"),
  ("maximum_massa_technisch_maximaal", "technical_mass_max_kg"),
  ("maximum_massa_technisch_minimaal", "technical_mass_min_kg"),
  ("subcategorie_nederland", "dutch_subcategory"),
  ("verticale_belasting_koppelpunt_getrokken_voertuig", "vertical_load_tow_point_kg"),
  ("zuinigheidsclassificatie", "efficiency_class"),
  ("registratie_datum_goedkeuring_afschrijvingsmoment_bpm", "bpm_depreciation_approval_date"),
  ("registratie_datum_goedkeuring_afschrijvingsmoment_bpm_dt", "bpm_depreciation_approval_datetime"),
  ("gem_lading_wrde", "avg_load_value"),
  ("aerodyn_voorz", "aerodynamic_features"),
  ("massa_alt_aandr", "alternative_drivetrain_mass_kg"),
  ("verl_cab_ind", "extended_cabin_indicator"),
  ("aantal_passagiers_zitplaatsen_wettelijk", "legal_passenger_seats"),
  ("aanwijzingsnummer", "designation_number"),
  ("api_gekentekende_voertuigen_assen", "api_axles_endpoint"),
  ("api_gekentekende_voertuigen_brandstof", "api_fuel_endpoint"),
  ("api_gekentekende_voertuigen_carrosserie", "api_bodywork_endpoint"),
  ("api_gekentekende_voertuigen_carrosserie_specifiek", "api_bodywork_specific_endpoint"),
  ("api_gekentekende_voertuigen_voertuigklasse", "api_vehicle_class_endpoint")]

/-- The key rule of `translate_record`: `COLUMN_TRANSLATIONS.get(k, k)`. -/
def columnGet (k : String) : String :=
  (dictGet COLUMN_TRANSLATIONS k).getD k

/-- The `value_translations` dict local to `translate_dutch_value`. -/
def value_translations : List (String × String) := [
  ("Ja", "Yes"),
  ("Nee", "No"),
  ("ja", "Yes"),
  ("nee", "No"),
  ("JA", "Yes"),
  ("NEE", "No"),
  ("Niet geregistreerd", "Not registered"),
  ("Niet van toepassing", "Not applicable"),
  ("Onbekend", "Unknown"),
  ("Leeg", "Empty"),
  ("Niet beschikbaar", "Not available"),
  ("Niet opgegeven", "Not specified"),
  ("Niet bekend", "Not known"),
  ("Niet ingevuld", "Not filled in"),
  ("Niet vermeld", "Not mentioned"),
  ("Niet opgenomen", "Not included"),
  ("Aanhangwagen", "Trailer"),
  ("Autonome aanhangwagen", "Autonomous trailer"),
  ("Bedrijfsauto", "Commercial vehicle"),
  ("Bromfiets", "Moped"),
  ("Bus", "Bus"),
  ("Driewielig motorrijtuig", "Three-wheeled motor vehicle"),
  ("Land- of bosb aanhw of getr uitr stuk", "Agricultural or forestry trailer or towed equipment"),
  ("Land- of bosbouwtrekker", "Agricultural or forestry tractor"),
  ("Middenasaanhangwagen", "Central axle trailer"),
  ("Mobiele machine", "Mobile machine"),
  ("Motorfiets", "Motorcycle"),
  ("Motorfiets met zijspan", "Motorcycle with sidecar"),
  ("Motorrijtuig met beperkte snelheid", "Limited speed motor vehicle"),
  ("Oplegger", "Semi-trailer"),
  ("Personenauto", "Passenger car")]

/-- Python `str(value)` on our value type (the null case is screened off
before stringification in `translate_dutch_value`). -/
def pyStr : Value → String
  | Value.str s => s
  | Value.num n => toString n
  | Value.null => "None"

/-- The structural date test of `translate_dutch_value`:
`len(str_value) == 8 and str_value.isdigit()`. -/
def isYYYYMMDD (s : String) : Bool :=
  s.data.length == 8 && pyIsDigit s

/-- The date reformatting of `translate_dutch_value`:
`str_value[:4] + "-" + str_value[4:6] + "-" + str_value[6:8]`. -/
def formatDate (s : String) : String :=
  pySlice s 0 4 ++ "-" ++ pySlice s 4 6 ++ "-" ++ pySlice s 6 8

/-- `translate_dutch_value` from `rdw_client.py`: null passes through; the
stripped stringification is tested by the structural 8-digit date rule first,
then looked up in `value_translations`; on a miss the original value is
returned unchanged. -/
def translate_dutch_value (v : Value) : Value :=
  match v with
  | Value.null => Value.null
  | _ =>
    let str_value := pyStrip (pyStr v)
    if isYYYYMMDD str_value then
      Value.str (formatDate str_value)
    else
      match dictGet value_translations str_value with
      | some t => Value.str t
      | none => v

/-- One iteration of the loop in `translate_record`:
`translated[COLUMN_TRANSLATIONS.get(k, k)] = translate_dutch_value(v)`. -/
def trStep (acc : Record) (kv : String × Value) : Record :=
  dictInsert acc (columnGet kv.1) (translate_dutch_value kv.2)

/-- `translate_record` from `rdw_client.py`: build a fresh dict, assigning
`translated[COLUMN_TRANSLATIONS.get(k, k)] = translate_dutch_value(v)` for
each entry of the source record in order. -/
def translate_record (r : Record) : Record :=
  r.foldl trStep []

/-- The single-quote character, used by `build_filters` to quote date
literals in the `$where` predicate. -/
def sq : String := String.mk [Char.ofNat 39]

/-- Quote a string in single quotes, as the f-strings of `build_filters` do. -/
def quoted (s : String) : String := sq ++ s ++ sq

/-- A `FilterSet` is a Python dict from query-parameter name to string. -/
abbrev FilterSet := List (String × String)

/-- Plate normalization in `build_filters`:
`license_plate.replace("-", "").replace(" ", "").upper()`. -/
def normalizePlate (lp : String) : String :=
  (pyRemoveChar (Char.ofNat 32) (pyRemoveChar (Char.ofNat 45) lp)).toUpper

/-- One optional-field step of `build_filters`: `if x: filters[k] = f(x)`
(Python truthiness: present and nonempty). -/
def addOptField (fs : FilterSet) (k : String) (o : Option String)
    (f : String → String) : FilterSet :=
  match o with
  | some s => if s.data.isEmpty then fs else dictInsert fs k (f s)
  | none => fs

/-- The `date_conditions` list of `build_filters`: one comparison per truthy
bound, each date converted from YYYY-MM-DD to compact YYYYMMDD. -/
def dateConditions (date_from date_to : Option String) : List String :=
  (match date_from with
   | some d =>
       if d.data.isEmpty then []
       else ["datum_tenaamstelling >= " ++ quoted (pyRemoveChar (Char.ofNat 45) d)]
   | none => []) ++
  (match date_to with
   | some d =>
       if d.data.isEmpty then []
       else ["datum_tenaamstelling <= " ++ quoted (pyRemoveChar (Char.ofNat 45) d)]
   | none => [])

/-- `build_filters` before the `order_by_recent` step: category, plate, brand
and model filters, then the `$where` date predicate when any bound is given. -/
def buildFiltersBase (category license_plate brand model date_from date_to :
    Option String) : FilterSet :=
  let fs : FilterSet := []
  let fs := addOptField fs "voertuigsoort" category id
  let fs := addOptField fs "kenteken" license_plate normalizePlate
  let fs := addOptField fs "merk" brand String.toUpper
  let fs := addOptField fs "handelsbenaming" model String.toUpper
  let dcs := dateConditions date_from date_to
  if dcs.isEmpty then fs else dictInsert fs "$where" (String.intercalate " AND " dcs)

/-- `build_filters` from `rdw_client.py`. -/
def build_filters (category license_plate brand model date_from date_to :
    Option String) (order_by_recent : Bool) : FilterSet :=
  let fs := buildFiltersBase category license_plate brand model date_from date_to
  if order_by_recent then
    let fs :=
      match dictGet fs "$where" with
      | some w => dictInsert fs "$where" (w ++ " AND datum_tenaamstelling IS NOT NULL")
      | none => dictInsert fs "$where" "datum_tenaamstelling IS NOT NULL"
    dictInsert fs "$order" "datum_tenaamstelling DESC"
  else fs

/-- `limit is not None and fetched >= limit` in `fetch_rdw_data`. -/
def limitReached (limit : Option Nat) (fetched : Nat) : Bool :=
  match limit with
  | none => false
  | some l => decide (l ≤ fetched)

/-- The inner `for row in rows` loop of `fetch_rdw_data`, having already
yielded `fetched` records: returns the rows yielded from this page and
whether the loop returned early because the limit was reached. -/
def takeRows {R : Type} (limit : Option Nat) (fetched : Nat) : List R → List R × Bool
  | [] => ([], false)
  | r :: rs =>
    if limitReached limit (fetched + 1) then ([r], true)
    else
      let p := takeRows limit (fetched + 1) rs
      (r :: p.1, p.2)

/-- The request loop of `fetch_rdw_data`. The remote server is modelled as the
list of pages it returns to successive requests (requests past the end of the
list receive an empty page). Returns the full yielded sequence together with
the number of HTTP requests issued. -/
def fetchPages {R : Type} (limit : Option Nat) (page_size : Nat) (fetched : Nat) :
    List (List R) → List R × Nat
  | [] => ([], 1)
  | rows :: rest =>
    if rows.isEmpty then ([], 1)
    else
      let p := takeRows limit fetched rows
      if p.2 then (p.1, 1)
      else if limitReached limit (fetched + p.1.length) then (p.1, 1)
      else if rows.length < page_size then (p.1, 1)
      else
        let q := fetchPages limit page_size (fetched + rows.length) rest
        (p.1 ++ q.1, 1 + q.2)

/-- `fetch_rdw_data` from `rdw_client.py`, drained by a consumer: given the
optional limit, the page size and the server's page sequence, the records
yielded (in order) and the number of requests issued. -/
def fetch_rdw_data {R : Type} (limit : Option Nat) (page_size : Nat)
    (pages : List (List R)) : List R × Nat :=
  fetchPages limit page_size 0 pages

/-- `CSV_FIELDNAMES = sorted(COLUMN_TRANSLATIONS.values())` from
`rdw_client.py`. -/
def CSV_FIELDNAMES : List String :=
  List.insertionSort (· ≤ ·) (COLUMN_TRANSLATIONS.map Prod.snd)

/-- One CSV data cell from `main.py`: `translated.get(field, "")`. -/
def csvCell (r : Record) (f : String) : Value :=
  (dictGet r f).getD (Value.str "")

/-- One CSV data row from `main.py`:
`{field: translated.get(field, "") for field in CSV_FIELDNAMES}`, read off in
fieldname order as the `DictWriter` serializes it. -/
def csvRow (r : Record) : List Value :=
  CSV_FIELDNAMES.map (csvCell r)

/-- The CSV sink of `main.py`: the header row written by `writeheader()` and
one data row per record. -/
def csvExport (records : List Record) : List String × List (List Value) :=
  (CSV_FIELDNAMES, records.map csvRow)

/-- Models the column inference of pandas `DataFrame.from_records` on a list
of mappings, as called by `export_to_excel`: the column list is the union of
the records' keys in order of first appearance. -/
def excelColumns (records : List Record) : List String :=
  records.foldl
    (fun cols r =>
      r.foldl (fun cols kv => if kv.1 ∈ cols then cols else cols ++ [kv.1]) cols)
    []

/-- `EXCEL_MAX_ROWS = 1_048_576` from `rdw_client.py`. -/
def EXCEL_MAX_ROWS : Nat := 1048576

/-- The errors `export_to_excel` can raise. -/
inductive ExportError where
  | pandasMissing : ExportError
  | capacity : Nat → ExportError
deriving DecidableEq, Repr

/-- `export_to_excel` from `rdw_client.py`: fail if pandas is unavailable,
fail with a capacity error if the record count exceeds `EXCEL_MAX_ROWS`, and
only otherwise build and write the sheet (so on error no file is produced). -/
def export_to_excel (pandasAvailable : Bool) (records : List Record) :
    Except ExportError (List String × List Record) :=
  if !pandasAvailable then Except.error ExportError.pandasMissing
  else if records.length > EXCEL_MAX_ROWS then
    Except.error (ExportError.capacity records.length)
  else Except.ok (excelColumns records, records)

end RDW

namespace RDW

example : translate_dutch_value (Value.str "Ja") = Value.str "Yes" := by decide
example : translate_dutch_value (Value.str "20200101") = Value.str "2020-01-01" := by decide
example : translate_dutch_value (Value.str "Volvo") = Value.str "Volvo" := by decide
example : translate_record [("kenteken", Value.str "X"), ("license_plate", Value.str "Y")]
    = [("license_plate", Value.str "Y")] := by decide

example : fetch_rdw_data none 2 [[1, 2], [3, 4], [5]] = ([1, 2, 3, 4, 5], 3) := by decide

example : fetch_rdw_data (some 3) 2 [[1, 2], [3, 4], [5, 6]] = ([1, 2, 3], 2) := by decide

example : fetch_rdw_data (some 0) 2 [[1, 2], [3, 4]] = ([1], 1) := by decide

example :
    dictGet (build_filters none none none none (some "2020-01-01") none false) "$where"
      = some ("datum_tenaamstelling >= " ++ quoted "20200101") := by decide

example :
    dictGet (build_filters none none none none (some "2020-01-01") none true) "$where"
      = some ("datum_tenaamstelling >= " ++ quoted "20200101" ++
          " AND datum_tenaamstelling IS NOT NULL") := by decide

example : excelColumns [[("make", Value.str "X")]] = ["make"] := by decide

/-! ### Dictionary lemmas -/

theorem dictInsert_cons_eq {V : Type} (k1 : String) (v1 : V) (d : List (String × V))
    (k : String) (v : V) (h : k1 = k) :
    dictInsert ((k1, v1) :: d) k v = (k1, v) :: d := by
  simp [dictInsert, h]

theorem dictInsert_cons_ne {V : Type} (k1 : String) (v1 : V) (d : List (String × V))
    (k : String) (v : V) (h : ¬ k1 = k) :
    dictInsert ((k1, v1) :: d) k v = (k1, v1) :: dictInsert d k v := by
  simp [dictInsert, h]

theorem dictGet_cons {V : Type} (k1 : String) (v1 : V) (d : List (String × V))
    (k : String) : dictGet ((k1, v1) :: d) k = if k1 = k then some v1 else dictGet d k :=
  rfl

theorem dictGet_insert_self {V : Type} (d : List (String × V)) (k : String) (v : V) :
    dictGet (dictInsert d k v) k = some v := by
  induction d with
  | nil => simp [dictInsert, dictGet]
  | cons kv d ih =>
    rcases kv with ⟨k1, v1⟩
    by_cases h : k1 = k
    · rw [dictInsert_cons_eq _ _ _ _ _ h, dictGet_cons, if_pos h]
    · rw [dictInsert_cons_ne _ _ _ _ _ h, dictGet_cons, if_neg h, ih]

theorem dictGet_insert_ne {V : Type} (d : List (String × V)) (k k' : String) (v : V)
    (h : k' ≠ k) : dictGet (dictInsert d k v) k' = dictGet d k' := by
  induction d with
  | nil =>
    show (if k = k' then some v else dictGet [] k') = dictGet [] k'
    rw [if_neg (fun hh => h hh.symm)]
  | cons kv d ih =>
    rcases kv with ⟨k1, v1⟩
    by_cases h1 : k1 = k
    · rw [dictInsert_cons_eq _ _ _ _ _ h1, dictGet_cons, dictGet_cons]
      have hne : ¬ k1 = k' := fun hh => h ((h1 ▸ hh : k = k')).symm
      rw [if_neg hne, if_neg hne]
    · rw [dictInsert_cons_ne _ _ _ _ _ h1, dictGet_cons, dictGet_cons, ih]

theorem mem_keys_dictInsert {V : Type} (d : List (String × V)) (k a : String) (v : V) :
    a ∈ (dictInsert d k v).map Prod.fst ↔ a ∈ d.map Prod.fst ∨ a = k := by
  induction d with
  | nil => simp [dictInsert]
  | cons kv d ih =>
    rcases kv with ⟨k1, v1⟩
    by_cases h : k1 = k
    · rw [dictInsert_cons_eq _ _ _ _ _ h]
      subst h
      simp only [List.map_cons, List.mem_cons]
      tauto
    · rw [dictInsert_cons_ne _ _ _ _ _ h]
      simp only [List.map_cons, List.mem_cons, ih]
      tauto

theorem nodup_keys_dictInsert {V : Type} (d : List (String × V)) (k : String) (v : V)
    (hd : (d.map Prod.fst).Nodup) : ((dictInsert d k v).map Prod.fst).Nodup := by
  induction d with
  | nil => simp [dictInsert]
  | cons kv d ih =>
    rcases kv with ⟨k1, v1⟩
    simp only [List.map_cons, List.nodup_cons] at hd
    by_cases h : k1 = k
    · rw [dictInsert_cons_eq _ _ _ _ _ h]
      simp only [List.map_cons, List.nodup_cons]
      exact ⟨hd.1, hd.2⟩
    · rw [dictInsert_cons_ne _ _ _ _ _ h]
      simp only [List.map_cons, List.nodup_cons]
      refine ⟨?_, ih hd.2⟩
      rw [mem_keys_dictInsert]
      rintro (hm | hm)
      · exact hd.1 hm
      · exact h hm

theorem length_dictInsert_not_mem {V : Type} (d : List (String × V)) (k : String) (v : V)
    (h : k ∉ d.map Prod.fst) : (dictInsert d k v).length = d.length + 1 := by
  induction d with
  | nil => simp [dictInsert]
  | cons kv d ih =>
    rcases kv with ⟨k1, v1⟩
    simp only [List.map_cons, List.mem_cons, not_or] at h
    have hne : ¬ k1 = k := fun hh => h.1 hh.symm
    rw [dictInsert_cons_ne _ _ _ _ _ hne]
    simp [ih h.2]

/-! ### Translator fold lemmas -/

theorem mem_keys_foldl_trStep : ∀ (r : Record) (acc : Record) (a : String),
    a ∈ (r.foldl trStep acc).map Prod.fst ↔
      a ∈ acc.map Prod.fst ∨ a ∈ r.map (fun kv => columnGet kv.1) := by
  intro r
  induction r with
  | nil => intro acc a; simp
  | cons kv r ih =>
    intro acc a
    rw [List.foldl_cons, ih]
    simp only [trStep, mem_keys_dictInsert, List.map_cons, List.mem_cons]
    tauto

theorem nodup_keys_foldl_trStep : ∀ (r : Record) (acc : Record),
    (acc.map Prod.fst).Nodup → ((r.foldl trStep acc).map Prod.fst).Nodup := by
  intro r
  induction r with
  | nil => intro acc h; simpa using h
  | cons kv r ih =>
    intro acc h
    rw [List.foldl_cons]
    exact ih _ (nodup_keys_dictInsert _ _ _ h)

theorem length_foldl_trStep : ∀ (r : Record) (acc : Record),
    (r.map (fun kv => columnGet kv.1)).Nodup →
    (∀ a ∈ r.map (fun kv => columnGet kv.1), a ∉ acc.map Prod.fst) →
    (r.foldl trStep acc).length = acc.length + r.length := by
  intro r
  induction r with
  | nil => intro acc _ _; simp
  | cons kv r ih =>
    intro acc hnd hdisj
    simp only [List.map_cons, List.nodup_cons] at hnd
    simp only [List.map_cons, List.mem_cons] at hdisj
    rw [List.foldl_cons]
    have hlen : (trStep acc kv).length = acc.length + 1 :=
      length_dictInsert_not_mem _ _ _ (hdisj _ (Or.inl rfl))
    have hdisj2 : ∀ a ∈ r.map (fun kv => columnGet kv.1), a ∉ (trStep acc kv).map Prod.fst := by
      intro a ha
      simp only [trStep, mem_keys_dictInsert]
      rintro (hm | hm)
      · exact hdisj a (Or.inr ha) hm
      · exact hnd.1 (hm ▸ ha)
    rw [ih (trStep acc kv) hnd.2 hdisj2, hlen]
    simp only [List.length_cons]
    omega

/-! ### Fetcher lemmas -/

theorem takeRows_none_eq {R : Type} : ∀ (fetched : Nat) (rows : List R),
    takeRows none fetched rows = (rows, false) := by
  intro fetched rows
  induction rows generalizing fetched with
  | nil => rfl
  | cons r rs ih =>
    simp only [takeRows, limitReached]
    simp [ih]

theorem takeRows_some_length {R : Type} : ∀ (rows : List R) (l fetched : Nat),
    fetched < l → (takeRows (some l) fetched rows).1.length ≤ l - fetched := by
  intro rows
  induction rows with
  | nil => intro l fetched _; simp [takeRows]
  | cons r rs ih =>
    intro l fetched h
    by_cases hl : l ≤ fetched + 1
    · simp only [takeRows, limitReached, decide_eq_true_eq, if_pos hl]
      simp
      omega
    · simp only [takeRows, limitReached, decide_eq_true_eq, if_neg hl]
      have := ih l (fetched + 1) (by omega)
      simp only [List.length_cons]
      omega

theorem takeRows_not_early {R : Type} : ∀ (rows : List R) (l fetched : Nat),
    (takeRows (some l) fetched rows).2 = false →
    (takeRows (some l) fetched rows).1 = rows := by
  intro rows
  induction rows with
  | nil => intro l fetched _; rfl
  | cons r rs ih =>
    intro l fetched h
    by_cases hl : l ≤ fetched + 1
    · simp only [takeRows, limitReached, decide_eq_true_eq, if_pos hl] at h
      exact Bool.noConfusion h
    · simp only [takeRows, limitReached, decide_eq_true_eq, if_neg hl] at h ⊢
      rw [ih l (fetched + 1) h]

theorem fetchPages_some_length {R : Type} : ∀ (pages : List (List R)) (ps l fetched : Nat),
    fetched < l → (fetchPages (some l) ps fetched pages).1.length ≤ l - fetched := by
  intro pages
  induction pages with
  | nil => intro ps l fetched _; simp [fetchPages]
  | cons rows rest ih =>
    intro ps l fetched h
    by_cases he : rows.isEmpty
    · simp [fetchPages, he]
    · by_cases hp : (takeRows (some l) fetched rows).2
      · simp only [fetchPages, if_neg he, if_pos hp]
        exact takeRows_some_length rows l fetched h
      · have hfull := takeRows_not_early rows l fetched (by simpa using hp)
        by_cases hlr : limitReached (some l) (fetched + (takeRows (some l) fetched rows).1.length)
        · simp only [fetchPages, if_neg he, if_neg hp, if_pos hlr]
          exact takeRows_some_length rows l fetched h
        · by_cases hshort : rows.length < ps
          · simp only [fetchPages, if_neg he, if_neg hp, if_neg hlr, if_pos hshort]
            exact takeRows_some_length rows l fetched h
          · simp only [fetchPages, if_neg he, if_neg hp, if_neg hlr, if_neg hshort]
            simp only [limitReached, decide_eq_true_eq] at hlr
            rw [hfull] at hlr
            have hrec := ih ps l (fetched + rows.length) (by omega)
            simp only [List.length_append, hfull]
            omega

/-! ### Filter-builder lemmas -/

theorem dictGet_addOptField_ne (fs : FilterSet) (k : String) (o : Option String)
    (f : String → String) (k' : String) (h : k' ≠ k) :
    dictGet (addOptField fs k o f) k' = dictGet fs k' := by
  cases o with
  | none => rfl
  | some s =>
    by_cases he : s.data.isEmpty
    · simp [addOptField, he]
    · simp only [addOptField, if_neg he]
      exact dictGet_insert_ne _ _ _ _ h

theorem dictGet_baseFields_where (c lp b m : Option String) :
    dictGet (addOptField (addOptField (addOptField (addOptField [] "voertuigsoort" c id)
      "kenteken" lp normalizePlate) "merk" b String.toUpper)
      "handelsbenaming" m String.toUpper) "$where" = none := by
  rw [dictGet_addOptField_ne _ _ _ _ _ (by decide),
      dictGet_addOptField_ne _ _ _ _ _ (by decide),
      dictGet_addOptField_ne _ _ _ _ _ (by decide),
      dictGet_addOptField_ne _ _ _ _ _ (by decide)]
  rfl

theorem dictGet_baseFields_order (c lp b m : Option String) :
    dictGet (addOptField (addOptField (addOptField (addOptField [] "voertuigsoort" c id)
      "kenteken" lp normalizePlate) "merk" b String.toUpper)
      "handelsbenaming" m String.toUpper) "$order" = none := by
  rw [dictGet_addOptField_ne _ _ _ _ _ (by decide),
      dictGet_addOptField_ne _ _ _ _ _ (by decide),
      dictGet_addOptField_ne _ _ _ _ _ (by decide),
      dictGet_addOptField_ne _ _ _ _ _ (by decide)]
  rfl

theorem dictGet_base_where (c lp b m df dt : Option String) :
    dictGet (buildFiltersBase c lp b m df dt) "$where" =
      if (dateConditions df dt).isEmpty then none
      else some (String.intercalate " AND " (dateConditions df dt)) := by
  show dictGet (if (dateConditions df dt).isEmpty then _
      else dictInsert _ "$where" (String.intercalate " AND " (dateConditions df dt)))
    "$where" = _
  by_cases hd : (dateConditions df dt).isEmpty
  · rw [if_pos hd, if_pos hd]
    exact dictGet_baseFields_where c lp b m
  · rw [if_neg hd, if_neg hd]
    exact dictGet_insert_self _ _ _

theorem dictGet_base_order (c lp b m df dt : Option String) :
    dictGet (buildFiltersBase c lp b m df dt) "$order" = none := by
  show dictGet (if (dateConditions df dt).isEmpty then _
      else dictInsert _ "$where" (String.intercalate " AND " (dateConditions df dt)))
    "$order" = _
  by_cases hd : (dateConditions df dt).isEmpty
  · rw [if_pos hd]
    exact dictGet_baseFields_order c lp b m
  · rw [if_neg hd, dictGet_insert_ne _ _ _ _ (by decide)]
    exact dictGet_baseFields_order c lp b m

theorem build_filters_false_eq (c lp b m df dt : Option String) :
    build_filters c lp b m df dt false = buildFiltersBase c lp b m df dt := rfl

theorem build_filters_true_eq (c lp b m df dt : Option String) :
    build_filters c lp b m df dt true =
      dictInsert
        (match dictGet (buildFiltersBase c lp b m df dt) "$where" with
         | some w => dictInsert (buildFiltersBase c lp b m df dt) "$where"
             (w ++ " AND datum_tenaamstelling IS NOT NULL")
         | none => dictInsert (buildFiltersBase c lp b m df dt) "$where"
             "datum_tenaamstelling IS NOT NULL")
        "$order" "datum_tenaamstelling DESC" := rfl

/-! ### Claim theorems -/

/-- Claim C1: the fetcher stops after receiving a page shorter than
`page_size` without issuing another request, and with `page_size = 2`
against a server returning pages of sizes [2, 2, 1] it yields exactly the
5 records in the order received using exactly 3 requests — whatever pages
the server could have served afterwards, so a 4th request is never
issued. -/
theorem fetch_short_page_terminates :
    (∀ (page_size fetched : Nat) (rows : List Nat) (rest : List (List Nat)),
      rows.length < page_size →
      fetchPages none page_size fetched (rows :: rest) = (rows, 1))
    ∧ (∀ (a b c d e : Nat) (tail : List (List Nat)),
      fetch_rdw_data none 2 ([[a, b], [c, d], [e]] ++ tail) = ([a, b, c, d, e], 3)) := by
  constructor
  · intro ps f rows rest hshort
    cases rows with
    | nil => rfl
    | cons r rs =>
      simp only [List.length_cons] at hshort
      simp [fetchPages, takeRows_none_eq, limitReached, hshort]
  · intro a b c d e tail
    rfl

theorem fetch_short_page_terminates_witness :
    fetchPages none 2 0 [[5], [9]] = ([5], 1)
    ∧ fetch_rdw_data none 2 ([[1, 2], [3, 4], [5]] ++ []) = ([1, 2, 3, 4, 5], 3) :=
  ⟨fetch_short_page_terminates.1 2 0 [5] [[9]] (by decide),
   fetch_short_page_terminates.2 1 2 3 4 5 []⟩

/-- Claim C2: with a positive limit the fetcher never yields more than
`limit` records (it terminates as soon as the yield count reaches the limit,
even mid-page), and with `limit = 3` against pages of size 2 it yields
exactly 3 records using exactly 2 requests. -/
theorem fetch_limit_bounds_yield :
    (∀ (limit page_size : Nat) (pages : List (List Nat)), 0 < limit →
      (fetch_rdw_data (some limit) page_size pages).1.length ≤ limit)
    ∧ (∀ (a b c d e f : Nat),
      fetch_rdw_data (some 3) 2 [[a, b], [c, d], [e, f]] = ([a, b, c], 2)) := by
  constructor
  · intro l ps pages hl
    have h := fetchPages_some_length pages ps l 0 hl
    simpa [fetch_rdw_data] using h
  · intro a b c d e f
    rfl

theorem fetch_limit_bounds_yield_witness :
    (fetch_rdw_data (some 1) 2 [[7, 8]]).1.length ≤ 1
    ∧ fetch_rdw_data (some 3) 2 [[1, 2], [3, 4], [5, 6]] = ([1, 2, 3], 2) :=
  ⟨fetch_limit_bounds_yield.1 1 2 [[7, 8]] (by decide),
   fetch_limit_bounds_yield.2 1 2 3 4 5 6⟩

/-- Claim C3: for every raw record, the key set of `translate_record r` is
exactly the image of the source keys under `COLUMN_TRANSLATIONS.get(k, k)` —
every known key renamed, every unknown key passed through verbatim, no key
dropped or duplicated. -/
theorem translate_record_keyset (r : Record) :
    ((translate_record r).map Prod.fst).Nodup
    ∧ ∀ a, a ∈ (translate_record r).map Prod.fst ↔
        a ∈ r.map (fun kv => columnGet kv.1) := by
  constructor
  · exact nodup_keys_foldl_trStep r [] (by simp)
  · intro a
    have h := mem_keys_foldl_trStep r [] a
    simpa [translate_record] using h

/-- Claim C4: `translate_dutch_value` — null returns unchanged; whenever
the stripped stringification is exactly 8 digits, the structural date rule
reformats it as YYYY-MM-DD before any dictionary lookup; `Ja`, `NEE` and
`Onbekend` translate through the value table; a value missing from the
table is returned unchanged, preserving its original type. -/
theorem translate_dutch_value_spec :
    translate_dutch_value Value.null = Value.null
    ∧ (∀ v : Value, v ≠ Value.null → isYYYYMMDD (pyStrip (pyStr v)) = true →
        translate_dutch_value v = Value.str (formatDate (pyStrip (pyStr v))))
    ∧ translate_dutch_value (Value.str "Ja") = Value.str "Yes"
    ∧ translate_dutch_value (Value.str "NEE") = Value.str "No"
    ∧ translate_dutch_value (Value.str "Onbekend") = Value.str "Unknown"
    ∧ translate_dutch_value (Value.str "Volvo") = Value.str "Volvo"
    ∧ (∀ v : Value, v ≠ Value.null → isYYYYMMDD (pyStrip (pyStr v)) = false →
        dictGet value_translations (pyStrip (pyStr v)) = none →
        translate_dutch_value v = v) := by
  refine ⟨rfl, ?_, by decide, by decide, by decide, by decide, ?_⟩
  · intro v hv h8
    cases v with
    | null => exact absurd rfl hv
    | str s => simp [translate_dutch_value, h8]
    | num n => simp [translate_dutch_value, h8]
  · intro v hv h8 hlk
    cases v with
    | null => exact absurd rfl hv
    | str s => simp [translate_dutch_value, h8, hlk]
    | num n => simp [translate_dutch_value, h8, hlk]

theorem translate_dutch_value_spec_witness :
    translate_dutch_value (Value.str "20200101")
        = Value.str (formatDate (pyStrip (pyStr (Value.str "20200101"))))
    ∧ translate_dutch_value (Value.str "Mazda") = Value.str "Mazda" :=
  ⟨translate_dutch_value_spec.2.1 (Value.str "20200101") (by decide) (by decide),
   translate_dutch_value_spec.2.2.2.2.2.2 (Value.str "Mazda")
     (by decide) (by decide) (by decide)⟩

/-- Claim C5 (amended): the CSV export's field ordering is the full canonical
field vocabulary sorted alphabetically, independent of which fields records
populate; a canonical field absent from a record renders as the empty
string; exporting an empty record sequence still writes exactly the header
row and nothing else. The Excel export, by contrast, takes its columns from
the keys actually present in the exported records (union in order of first
appearance), not from the canonical vocabulary. -/
theorem csv_export_canonical_ordering :
    CSV_FIELDNAMES.Sorted (· ≤ ·)
    ∧ CSV_FIELDNAMES.Perm (COLUMN_TRANSLATIONS.map Prod.snd)
    ∧ csvExport [] = (CSV_FIELDNAMES, [])
    ∧ (∀ (r : Record) (f : String), dictGet r f = none → csvCell r f = Value.str "") := by
  refine ⟨List.sorted_insertionSort _ _, List.perm_insertionSort _ _, rfl, ?_⟩
  intro r f h
  simp [csvCell, h]

theorem csv_export_canonical_ordering_witness :
    csvCell [] "make" = Value.str "" :=
  csv_export_canonical_ordering.2.2.2 [] "make" rfl

/-- Claim C5 fails for the Excel export: a dataset whose single record
populates only `make` is exported with the single column `make`, not with
the full alphabetical canonical vocabulary `CSV_FIELDNAMES`. -/
theorem excel_columns_not_canonical :
    excelColumns [[("make", Value.str "X")]] = ["make"]
    ∧ excelColumns [[("make", Value.str "X")]] ≠ CSV_FIELDNAMES := by
  refine ⟨rfl, fun h => ?_⟩
  have hlen : (1 : Nat) = CSV_FIELDNAMES.length := by
    simpa using congrArg List.length h
  have h2 : CSV_FIELDNAMES.length = (COLUMN_TRANSLATIONS.map Prod.snd).length :=
    (List.perm_insertionSort _ _).length_eq
  have h3 : (COLUMN_TRANSLATIONS.map Prod.snd).length = 98 := rfl
  omega

/-- Claim C6 is false on the code: a record holding both the Dutch key
`kenteken` and another key equal to its canonical English name
`license_plate` translates to a single-entry record, because both source
keys map to the same translated key and the later assignment overwrites the
earlier one — the cardinality is not preserved. -/
theorem translate_record_cardinality_counterexample :
    (translate_record [("kenteken", Value.str "X"), ("license_plate", Value.str "Y")]).length
      ≠ ([("kenteken", Value.str "X"), ("license_plate", Value.str "Y")] : Record).length := by
  decide

/-- Claim C6 (amended): `translate_record r` has the same cardinality as `r`
whenever the translated keys of `r` are pairwise distinct; when two source
keys translate to the same canonical name — in particular a known Dutch key
together with a key equal to that key's canonical English name — the later
entry overwrites the earlier one and the cardinality drops. -/
theorem translate_record_cardinality_of_nodup (r : Record)
    (h : (r.map (fun kv => columnGet kv.1)).Nodup) :
    (translate_record r).length = r.length := by
  have hl := length_foldl_trStep r [] h (by simp)
  simpa [translate_record] using hl

theorem translate_record_cardinality_of_nodup_witness :
    (translate_record [("kenteken", Value.str "X")]).length
      = ([("kenteken", Value.str "X")] : Record).length :=
  translate_record_cardinality_of_nodup _ (by decide)

/-- Claim C7: whatever the other filter arguments, with only
`date_from = "2020-01-01"` the `$where` value is exactly the single `>=`
comparison on the compacted date (hence contains no `<=` clause); with both
bounds the two comparisons are joined with " AND "; with neither bound the
date logic produces no `$where` entry. -/
theorem build_filters_date_where (c lp b m : Option String) :
    dictGet (build_filters c lp b m (some "2020-01-01") none false) "$where"
      = some ("datum_tenaamstelling >= " ++ quoted "20200101")
    ∧ dictGet (build_filters c lp b m (some "2020-01-01") (some "2020-12-31") false) "$where"
      = some ("datum_tenaamstelling >= " ++ quoted "20200101"
          ++ " AND " ++ "datum_tenaamstelling <= " ++ quoted "20201231")
    ∧ dictGet (build_filters c lp b m none none false) "$where" = none := by
  refine ⟨?_, ?_, ?_⟩
  · rw [build_filters_false_eq, dictGet_base_where]
    decide
  · rw [build_filters_false_eq, dictGet_base_where]
    decide
  · rw [build_filters_false_eq, dictGet_base_where]
    decide

/-- Claim C8: for every combination of the other arguments, requesting
recency ordering sets `$order` to the descending clause and makes `$where`
end with the IS-NOT-NULL conjunct — appended with " AND " to the predicate
the same arguments would otherwise produce, or standing alone when there was
none; without recency ordering no `$order` key is present. -/
theorem build_filters_order_by_recent (c lp b m df dt : Option String) :
    dictGet (build_filters c lp b m df dt true) "$order"
      = some "datum_tenaamstelling DESC"
    ∧ dictGet (build_filters c lp b m df dt true) "$where"
      = some (match dictGet (build_filters c lp b m df dt false) "$where" with
          | some w => w ++ " AND datum_tenaamstelling IS NOT NULL"
          | none => "datum_tenaamstelling IS NOT NULL")
    ∧ dictGet (build_filters c lp b m df dt false) "$order" = none := by
  refine ⟨?_, ?_, ?_⟩
  · rw [build_filters_true_eq]
    exact dictGet_insert_self _ _ _
  · rw [build_filters_true_eq, build_filters_false_eq,
      dictGet_insert_ne _ _ _ _ (by decide)]
    cases hw : dictGet (buildFiltersBase c lp b m df dt) "$where" with
    | none => exact dictGet_insert_self _ _ _
    | some w => exact dictGet_insert_self _ _ _
  · rw [build_filters_false_eq]
    exact dictGet_base_order c lp b m df dt

/-- Claim C9: `export_to_excel` raises a capacity error — and produces no
sheet — exactly when the record count exceeds the 1,048,576-row ceiling
(e.g. at 1,048,577 records); at or below the ceiling no capacity error is
raised and the sheet is produced. -/
theorem export_to_excel_capacity (records : List Record) :
    (records.length > EXCEL_MAX_ROWS →
      export_to_excel true records = Except.error (ExportError.capacity records.length))
    ∧ (records.length ≤ EXCEL_MAX_ROWS →
      export_to_excel true records = Except.ok (excelColumns records, records)) := by
  constructor
  · intro h
    simp [export_to_excel, h]
  · intro h
    have hn : ¬ records.length > EXCEL_MAX_ROWS := by omega
    simp [export_to_excel, hn]

theorem export_to_excel_capacity_witness :
    export_to_excel true (List.replicate 1048577 ([] : Record))
      = Except.error (ExportError.capacity (List.replicate 1048577 ([] : Record)).length)
    ∧ export_to_excel true [] = Except.ok (excelColumns [], []) :=
  ⟨(export_to_excel_capacity _).1 (by rw [List.length_replicate]; decide),
   (export_to_excel_capacity _).2 (by decide)⟩

/-- Claim C10: invoked with `limit = 0` against a server whose first page is
non-empty, the fetcher still issues exactly one request and stops right
after the first yielded-or-not check — at that boundary it yields the single
first record (within the claim's zero-or-one), and no further request is
issued. -/
theorem fetch_limit_zero_one_request :
    ∀ (page_size : Nat) (r : Nat) (rs : List Nat) (rest : List (List Nat)),
      fetch_rdw_data (some 0) page_size ((r :: rs) :: rest) = ([r], 1) := by
  intro ps r rs rest
  rfl

end RDW
